import Mathlib

/-!
Verification of the oraculo question-and-answer module.

This file gives a shallow embedding, in Lean, of the persistence layer
(class BancoDeDados), the completion wrapper (class GerenciadorIA) and the
orchestrator (class Oraculo.processar_pergunta) of src/oraculo.py, and
proves or refutes the specified properties of that code.

Modelling conventions:
- A JSON record dict becomes the structure Registro; the timestamp strings
  produced by datetime.now().isoformat() are modelled as natural numbers
  (only their identity and relative order ever matter).
- The pair of the in-memory list self.dados["perguntas"] and the record set
  represented by the backing file data/perguntas.json becomes the structure
  Sistema.  File input and output can fail in Python; every operation that
  calls salvar therefore takes an extra Boolean oracle saying whether the
  underlying write succeeds, exactly where the Python try/except around the
  write decides between returning True and False.
- The remote OpenAI call is external input; its outcome (a successful
  completion text, or one of the exception classes handled by the except
  chain of gerar_resposta) is the inductive ApiOutcome, passed in as an
  argument.
-/

/-- One question record, mirroring the dict built in
BancoDeDados.adicionar_pergunta: keys id, pergunta, contexto, resposta,
data, respondida, and the key data_resposta added later by
responder_pergunta (absent, i.e. none, until then). -/
structure Registro where
  id : Nat
  pergunta : String
  contexto : Option String
  resposta : Option String
  data : Nat
  respondida : Bool
  data_resposta : Option Nat
deriving Repr, DecidableEq

/-- The store state: the in-memory list self.dados["perguntas"] together
with the record set currently represented by the backing JSON file. -/
structure Sistema where
  mem : List Registro
  disk : List Registro
deriving Repr, DecidableEq

/-- The empty store: self.dados = \x7b"perguntas": []\x7d over an empty or
absent file. -/
def sistemaVazio : Sistema := { mem := [], disk := [] }

/-- BancoDeDados.salvar: json.dump writes the whole in-memory set to the
backing file; returns True on success, False when the write raises (the
except branch logs and returns False, leaving the previous disk state). -/
def salvar (s : Sistema) (ok : Bool) : Sistema × Bool :=
  if ok then ({ s with disk := s.mem }, true) else (s, false)

/-- The id allocation of adicionar_pergunta:
max([p.get("id", 0) for p in self.dados.get("perguntas", [])] + [0]) + 1.
Every record built by this module carries an id, so p.get("id", 0) is
p["id"] here. -/
def nextId (rs : List Registro) : Nat :=
  (rs.map Registro.id).foldl max 0 + 1

/-- BancoDeDados.adicionar_pergunta: allocates the next id, appends the new
pending record to the in-memory list, then calls salvar; returns the record
when the write succeeded and None otherwise (the record stays in memory
either way: the append happens before salvar). -/
def adicionar_pergunta (s : Sistema) (pergunta : String) (contexto : Option String)
    (now : Nat) (ok : Bool) : Sistema × Option Registro :=
  let registro : Registro :=
    { id := nextId s.mem
      pergunta := pergunta
      contexto := contexto
      resposta := none
      data := now
      respondida := false
      data_resposta := none }
  let s1 : Sistema := { s with mem := s.mem ++ [registro] }
  let r := salvar s1 ok
  (r.1, if r.2 then some registro else none)

/-- The loop of BancoDeDados.responder_pergunta: walk the list, update the
first record whose id matches (setting resposta, respondida = True and
data_resposta) and stop; none when no record matches. -/
def updateFirst (rs : List Registro) (idp : Nat) (resposta : String) (now : Nat) :
    Option (List Registro) :=
  match rs with
  | [] => none
  | r :: tl =>
    if r.id = idp then
      some ({ r with
              resposta := some resposta
              respondida := true
              data_resposta := some now } :: tl)
    else
      (updateFirst tl idp resposta now).map (fun tl2 => r :: tl2)

/-- BancoDeDados.responder_pergunta: when the id is found the record is
updated in place and salvar decides the returned Boolean; when it is not
found the function returns False without touching the store or the file. -/
def responder_pergunta (s : Sistema) (idp : Nat) (resposta : String)
    (now : Nat) (ok : Bool) : Sistema × Bool :=
  match updateFirst s.mem idp resposta now with
  | some mem2 => salvar { s with mem := mem2 } ok
  | none => (s, false)

/-- First record with the given id, as Python aliasing sees it: the dict
returned by adicionar_pergunta is the same object that sits in the list, so
after responder_pergunta the caller of adicionar_pergunta observes the
updated record.  find? on id locates that object in the pure model. -/
def findRegistro (rs : List Registro) (idp : Nat) : Option Registro :=
  rs.find? (fun r => r.id = idp)

/-- Outcome of the one remote chat-completions call made by
GerenciadorIA.gerar_resposta: either a completion text, or the error
condition handled by one of the except clauses of its try block.  (In the
installed openai library APITimeoutError subclasses APIConnectionError, so
at runtime a timeout is caught by the earlier connection clause; each
condition is modelled here by the clause that names it, and no claim below
depends on which of the two fallback strings a timeout produces.) -/
inductive ApiOutcome where
  | success (text : String)
  | connectionError
  | rateLimit
  | authError
  | permissionDenied
  | notFound
  | unprocessable
  | statusError (code : Nat)
  | timeout
  | unknownError
deriving Repr, DecidableEq

/-- True on every outcome other than a successful completion. -/
def ApiOutcome.isError : ApiOutcome → Bool
  | .success _ => false
  | _ => true

/-- Fallback returned by gerar_resposta when self.client is None. -/
def msgSemClienteGerar : String :=
  "⚠️ Serviço de IA indisponível no momento (falha na inicialização ou configuração)."

/-- Fallback of the except openai.APIConnectionError clause. -/
def msgConexao : String :=
  "🔮 O oráculo não conseguiu se conectar aos reinos etéreos. Verifique sua conexão de rede ou as configurações de proxy (se aplicável)."

/-- Fallback of the except openai.RateLimitError clause. -/
def msgRateLimit : String :=
  "🔮 O oráculo está sobrecarregado no momento devido a muitas consultas. Tente novamente mais tarde."

/-- Fallback of the except openai.AuthenticationError clause. -/
def msgAuth : String :=
  "🔮 A chave de acesso do Oráculo (API Key) é inválida ou expirou. Verifique a configuração OPENAI_API_KEY."

/-- Fallback of the except openai.PermissionDeniedError clause. -/
def msgPermissao : String :=
  "🔮 O Oráculo não tem permissão para acessar este recurso. Verifique as permissões da sua chave API."

/-- Fallback of the except openai.NotFoundError clause; the f-string
interpolates the configured model name. -/
def msgNotFound (model : String) : String :=
  "🔮 O Oráculo não encontrou o recurso solicitado (talvez o modelo \x27" ++ model ++ "\x27 seja inválido?)."

/-- Fallback of the except openai.UnprocessableEntityError clause. -/
def msgUnprocessable : String :=
  "🔮 O Oráculo não entendeu a solicitação devido a um formato inválido. Verifique a pergunta ou contexto."

/-- Fallback of the except openai.APIStatusError clause; the f-string
interpolates e.status_code. -/
def msgStatus (code : Nat) : String :=
  "🔮 O oráculo encontrou um problema inesperado ao se comunicar com os reinos superiores (Erro " ++ toString code ++ "). Tente novamente."

/-- Fallback of the except openai.APITimeoutError clause. -/
def msgTimeout : String :=
  "🔮 A consulta ao Oráculo demorou demais para responder. Tente novamente ou simplifique sua pergunta."

/-- Fallback of the final except Exception clause. -/
def msgUnknown : String :=
  "🔮 O oráculo está temporariamente confuso e não pôde responder devido a um erro inesperado. Tente novamente."

/-- GerenciadorIA.gerar_resposta: with no client configured it returns a
fixed fallback; otherwise it makes the remote call once and either returns
the stripped completion text or the fallback string of the matching except
clause.  Every branch returns a string; no exception escapes. -/
def gerar_resposta (clientOk : Bool) (model : String) (outcome : ApiOutcome) : String :=
  if clientOk = false then msgSemClienteGerar
  else
    match outcome with
    | .success text => text.trim
    | .connectionError => msgConexao
    | .rateLimit => msgRateLimit
    | .authError => msgAuth
    | .permissionDenied => msgPermissao
    | .notFound => msgNotFound model
    | .unprocessable => msgUnprocessable
    | .statusError code => msgStatus code
    | .timeout => msgTimeout
    | .unknownError => msgUnknown

/-- Validation message of processar_pergunta for an empty question. -/
def msgPerguntaVazia : String := "A pergunta não pode estar vazia."

/-- Message of processar_pergunta when adicionar_pergunta returns None. -/
def msgFalhaRegistrar : String := "Desculpe, houve uma falha ao registrar sua pergunta."

/-- Answer text substituted by processar_pergunta when self.ia.client is
None (the early branch before gerar_resposta would be called). -/
def msgSemClienteProcessar : String := "⚠️ Serviço de IA indisponível no momento."

/-- Warning message of processar_pergunta when saving the answer fails. -/
def msgAviso : String := "Sua resposta foi gerada, mas houve um problema ao salvá-la permanentemente."

/-- Shape of the dict processar_pergunta returns: a bare error dict, an
error dict merged with the record fields (the no-client branch), a warning
dict merged with the record fields, or the plain record. -/
inductive Resultado where
  | erro (msg : String)
  | erroComRegistro (msg : String) (registro : Registro)
  | aviso (msg : String) (registro : Registro)
  | sucesso (registro : Registro)
deriving Repr, DecidableEq

/-- True exactly on the plain-record shape (no erro and no aviso key). -/
def Resultado.isSucesso : Resultado → Bool
  | .sucesso _ => true
  | _ => false

/-- State of the Oraculo object: its BancoDeDados and whether
GerenciadorIA holds an initialized client (self.ia.client is not None). -/
structure Oraculo where
  sys : Sistema
  iaClient : Bool
deriving Repr, DecidableEq

/-- Everything one call of processar_pergunta produces: the new state, the
returned dict, and how many times gerar_resposta reached the remote call
path (the call-count a stub completion client would record). -/
structure ProcResult where
  state : Oraculo
  resultado : Resultado
  iaCalls : Nat
deriving Repr, DecidableEq

/-- The record as the caller of processar_pergunta sees it after
responder_pergunta: the dict appended by adicionar_pergunta is the same
object the update loop mutates, so the callers registro reflects the
update whenever the id was found; registro["resposta"] = resposta is also
assigned directly. -/
def registroAtualizado (s : Sistema) (registro : Registro) (resposta : String) : Registro :=
  match findRegistro s.mem registro.id with
  | some r => r
  | none => { registro with resposta := some resposta }

/-- The validation test of processar_pergunta: not pergunta or not
isinstance(pergunta, str) or not pergunta.strip().  For a string argument
this holds exactly when every character is whitespace, the empty string
included (pergunta.strip() is falsy exactly then). -/
def perguntaVazia (p : String) : Bool := p.data.all Char.isWhitespace

/-- Oraculo.processar_pergunta: validate, add the pending record, obtain
the answer (fallback text when no client), store the answer, and return
the dict of the branch taken.  ok1 and ok2 are the success of the two
salvar calls; outcome is the remote-call outcome; model the configured
model name. -/
def processar_pergunta (o : Oraculo) (pergunta : String) (contexto : Option String)
    (model : String) (now1 now2 : Nat) (ok1 : Bool) (outcome : ApiOutcome)
    (ok2 : Bool) : ProcResult :=
  if perguntaVazia pergunta then
    { state := o, resultado := .erro msgPerguntaVazia, iaCalls := 0 }
  else
    let r1 := adicionar_pergunta o.sys pergunta contexto now1 ok1
    match r1.2 with
    | none =>
      { state := { o with sys := r1.1 }
        resultado := .erro msgFalhaRegistrar
        iaCalls := 0 }
    | some registro =>
      if o.iaClient = false then
        let resposta := msgSemClienteProcessar
        let r2 := responder_pergunta r1.1 registro.id resposta now2 ok2
        { state := { o with sys := r2.1 }
          resultado := .erroComRegistro resposta (registroAtualizado r2.1 registro resposta)
          iaCalls := 0 }
      else
        let resposta := gerar_resposta o.iaClient model outcome
        let r2 := responder_pergunta r1.1 registro.id resposta now2 ok2
        if r2.2 = false then
          { state := { o with sys := r2.1 }
            resultado := .aviso msgAviso (registroAtualizado r2.1 registro resposta)
            iaCalls := 1 }
        else
          { state := { o with sys := r2.1 }
            resultado := .sucesso (registroAtualizado r2.1 registro resposta)
            iaCalls := 1 }

/-- JSON values, the possible results of json.load. -/
inductive Json where
  | null
  | bool (b : Bool)
  | num (n : Int)
  | str (s : String)
  | arr (elems : List Json)
  | obj (fields : List (String × Json))

/-- Lookup in a parsed JSON object as a Python dict sees it: json.load
keeps the last occurrence of a duplicated key. -/
def dictGet (fields : List (String × Json)) (k : String) : Option Json :=
  fields.foldl (fun acc kv => if kv.1 = k then some kv.2 else acc) none

/-- State of the backing file as _carregar finds it: missing, existing
with size 0, nonempty but rejected by json.load, or parsed to a value. -/
inductive LoadInput where
  | absent
  | empty
  | invalid
  | parsed (j : Json)

/-- The initial self.dados value, also the reset value of every recovery
branch of _carregar. -/
def dadosVazios : Json := .obj [("perguntas", .arr [])]

/-- True exactly when _carregar keeps the parsed value: a nonempty file
parsing to an object whose "perguntas" key holds a list.  On every other
input, including the non-dict values whose membership test or indexing
raises and lands in the generic except clause, _carregar resets. -/
def loadOk : LoadInput → Bool
  | .parsed (.obj fields) =>
    match dictGet fields "perguntas" with
    | some (.arr _) => true
    | _ => false
  | _ => false

/-- BancoDeDados._carregar: absent or empty file, a JSONDecodeError, any
other raised error, or a parsed value without a list under "perguntas" all
leave self.dados = \x7b"perguntas": []\x7d; a well-shaped parsed object is
kept as is.  Every branch assigns; nothing propagates to the caller. -/
def carregar : LoadInput → Json
  | .absent => dadosVazios
  | .empty => dadosVazios
  | .invalid => dadosVazios
  | .parsed j =>
    match j with
    | .obj fields =>
      match dictGet fields "perguntas" with
      | some (.arr _) => .obj fields
      | _ => dadosVazios
    | _ => dadosVazios

/-- Content of the backing file at one instant during a write. -/
inductive FileContent where
  | recordSet (rs : List Registro)
  | truncated
deriving Repr, DecidableEq

/-- True when the file holds a complete serialized record set, false in
the truncated or partially written state. -/
def FileContent.isRecordSet : FileContent → Bool
  | .recordSet _ => true
  | .truncated => false

/-- The sequence of on-disk states of the backing file across one salvar
call, traced from the source: open(self.arquivo, "w") truncates the target
file in place, then json.dump(self.dados, f) writes the whole set.  No
temporary file is written and no atomic rename happens; between the two
steps the target file is truncated. -/
def salvarFileStates (before : FileContent) (rs : List Registro) : List FileContent :=
  [before, .truncated, .recordSet rs]

/-- Modelled from the spec: the Record Store operation
list(filter_answered?) of section 4.1.  src/app.py line 66 calls it as
oraculo.historico, but no file under src/ implements it; per the spec it
returns the records optionally filtered by answered status in insertion
order, or sorted by created_at descending when the caller requests recency
order. -/
def listRecords (rs : List Registro) (filtroRespondida : Option Bool)
    (recencia : Bool) : List Registro :=
  let base :=
    match filtroRespondida with
    | none => rs
    | some b => rs.filter (fun r => r.respondida = b)
  if recencia then base.mergeSort (fun a b => decide (b.data ≤ a.data))
  else base

/-- Whether a record passes the answered-status filter of listRecords. -/
def filtroMatch (filtroRespondida : Option Bool) (r : Registro) : Bool :=
  match filtroRespondida with
  | none => true
  | some b => r.respondida = b

/-- One store call: BancoDeDados.adicionar_pergunta or
BancoDeDados.responder_pergunta, with its arguments and the success of its
salvar call. -/
inductive Op where
  | add (pergunta : String) (contexto : Option String) (now : Nat) (ok : Bool)
  | answer (idp : Nat) (resposta : String) (now : Nat) (ok : Bool)
deriving Repr, DecidableEq

/-- The store state after one call. -/
def applyOp (s : Sistema) : Op → Sistema
  | .add p c n ok => (adicionar_pergunta s p c n ok).1
  | .answer i r n ok => (responder_pergunta s i r n ok).1

/-- The store state after a sequence of calls. -/
def runOps (s : Sistema) : List Op → Sistema
  | [] => s
  | op :: ops => runOps (applyOp s op) ops

/-- The ids adicionar_pergunta writes into the new records of a run, in
call order (an id is assigned even when the salvar inside the add fails:
the append precedes the write). -/
def idsAssigned (s : Sistema) : List Op → List Nat
  | [] => []
  | .add p c n ok :: ops => nextId s.mem :: idsAssigned (applyOp s (.add p c n ok)) ops
  | .answer i r n ok :: ops => idsAssigned (applyOp s (.answer i r n ok)) ops

/-- Number of add calls in a run. -/
def countAdds : List Op → Nat
  | [] => 0
  | .add _ _ _ _ :: ops => countAdds ops + 1
  | .answer _ _ _ _ :: ops => countAdds ops

/-- Whether a store call writes the file successfully: an add with a
successful salvar, or an answer whose id is found (otherwise salvar is
never reached) with a successful salvar. -/
def opPersists (s : Sistema) : Op → Bool
  | .add _ _ _ ok => ok
  | .answer i r n ok => ok && (updateFirst s.mem i r n).isSome

/-- The record-level invariant of section 3 of the spec: respondida is
true exactly when both resposta and data_resposta are set. -/
def invarianteRespondida (rs : List Registro) : Prop :=
  ∀ r ∈ rs, r.respondida = true ↔ (r.resposta ≠ none ∧ r.data_resposta ≠ none)

example : nextId [] = 1 := by decide
example :
    (adicionar_pergunta sistemaVazio "q" none 5 true).2 =
      some { id := 1
             pergunta := "q"
             contexto := none
             resposta := none
             data := 5
             respondida := false
             data_resposta := none } := by decide
example :
    (responder_pergunta ((adicionar_pergunta sistemaVazio "q" none 5 true).1)
      1 "a" 6 true).2 = true := by decide
example : (responder_pergunta sistemaVazio 3 "a" 6 true) = (sistemaVazio, false) := by decide

/-! Helper lemmas about id allocation, the update loop and find?. -/

theorem le_foldl_max_acc (l : List Nat) : ∀ acc : Nat, acc ≤ l.foldl max acc := by
  induction l with
  | nil => intro acc; exact Nat.le_refl acc
  | cons b tl ih =>
    intro acc
    exact Nat.le_trans (Nat.le_max_left acc b) (ih (max acc b))

theorem mem_le_foldl_max (l : List Nat) : ∀ (acc a : Nat), a ∈ l → a ≤ l.foldl max acc := by
  induction l with
  | nil => intro acc a h; cases h
  | cons b tl ih =>
    intro acc a h
    cases h with
    | head => exact Nat.le_trans (Nat.le_max_right acc b) (le_foldl_max_acc tl (max acc b))
    | tail _ h2 => exact ih (max acc b) a h2

theorem mem_id_lt_nextId (rs : List Registro) (r : Registro) (h : r ∈ rs) :
    r.id < nextId rs := by
  have hm : r.id ∈ rs.map Registro.id := List.mem_map.mpr ⟨r, h, rfl⟩
  exact Nat.lt_succ_of_le (mem_le_foldl_max (rs.map Registro.id) 0 r.id hm)

theorem updateFirst_eq_none_iff (rs : List Registro) (idp : Nat) (resposta : String)
    (now : Nat) : updateFirst rs idp resposta now = none ↔ ∀ r ∈ rs, r.id ≠ idp := by
  induction rs with
  | nil => simp [updateFirst]
  | cons r tl ih =>
    by_cases h : r.id = idp
    · simp [updateFirst, h]
    · simp [updateFirst, h, ih]

theorem updateFirst_append_of_ne (l1 l2 : List Registro) (idp : Nat) (resposta : String)
    (now : Nat) (h : ∀ r ∈ l1, r.id ≠ idp) :
    updateFirst (l1 ++ l2) idp resposta now =
      (updateFirst l2 idp resposta now).map (fun tl => l1 ++ tl) := by
  induction l1 with
  | nil => simp
  | cons r tl ih =>
    have hr : r.id ≠ idp := h r (List.mem_cons_self r tl)
    have htl : ∀ x ∈ tl, x.id ≠ idp := fun x hx => h x (List.mem_cons_of_mem r hx)
    simp [updateFirst, hr, ih htl, Option.map_map]
    cases updateFirst l2 idp resposta now <;> rfl

theorem updateFirst_map_id (rs : List Registro) (idp : Nat) (resposta : String) (now : Nat) :
    ∀ rs2, updateFirst rs idp resposta now = some rs2 →
      rs2.map Registro.id = rs.map Registro.id := by
  induction rs with
  | nil => intro rs2 h; simp [updateFirst] at h
  | cons r tl ih =>
    intro rs2 h
    by_cases hr : r.id = idp
    · simp [updateFirst, hr] at h
      subst h
      simp [hr]
    · simp [updateFirst, hr] at h
      obtain ⟨tl2, htl2, rfl⟩ := h
      simp [ih tl2 htl2]

theorem updateFirst_mem (rs : List Registro) (idp : Nat) (resposta : String) (now : Nat) :
    ∀ rs2, updateFirst rs idp resposta now = some rs2 →
      ∀ r ∈ rs2, r ∈ rs ∨
        (r.respondida = true ∧ r.resposta = some resposta ∧ r.data_resposta = some now) := by
  induction rs with
  | nil => intro rs2 h; simp [updateFirst] at h
  | cons r tl ih =>
    intro rs2 h x hx
    by_cases hr : r.id = idp
    · simp [updateFirst, hr] at h
      subst h
      rcases List.mem_cons.mp hx with h1 | h2
      · subst h1; right; exact ⟨rfl, rfl, rfl⟩
      · left; exact List.mem_cons_of_mem r h2
    · simp [updateFirst, hr] at h
      obtain ⟨tl2, htl2, rfl⟩ := h
      rcases List.mem_cons.mp hx with h1 | h2
      · subst h1; left; exact List.mem_cons_self x tl
      · rcases ih tl2 htl2 x h2 with h3 | h3
        · left; exact List.mem_cons_of_mem r h3
        · right; exact h3

theorem findRegistro_append_of_ne (l1 : List Registro) (r0 : Registro) (idp : Nat)
    (hid : r0.id = idp) (h : ∀ r ∈ l1, r.id ≠ idp) :
    findRegistro (l1 ++ [r0]) idp = some r0 := by
  induction l1 with
  | nil => simp [findRegistro, List.find?, hid]
  | cons r tl ih =>
    have hr : r.id ≠ idp := h r (List.mem_cons_self r tl)
    have htl : ∀ x ∈ tl, x.id ≠ idp := fun x hx => h x (List.mem_cons_of_mem r hx)
    simpa [findRegistro, List.find?, hr] using ih htl

theorem adicionar_true_eq (s : Sistema) (p : String) (c : Option String) (n : Nat) :
    adicionar_pergunta s p c n true =
      (⟨s.mem ++ [⟨nextId s.mem, p, c, none, n, false, none⟩],
        s.mem ++ [⟨nextId s.mem, p, c, none, n, false, none⟩]⟩,
       some ⟨nextId s.mem, p, c, none, n, false, none⟩) := rfl

theorem adicionar_false_eq (s : Sistema) (p : String) (c : Option String) (n : Nat) :
    adicionar_pergunta s p c n false =
      (⟨s.mem ++ [⟨nextId s.mem, p, c, none, n, false, none⟩], s.disk⟩, none) := rfl

theorem responder_append_new (M d : List Registro) (r0 : Registro) (idp : Nat)
    (resposta : String) (now2 : Nat) (ok : Bool)
    (hid : r0.id = idp) (h : ∀ r ∈ M, r.id ≠ idp) :
    responder_pergunta ⟨M ++ [r0], d⟩ idp resposta now2 ok =
      salvar ⟨M ++ [{ r0 with
                      resposta := some resposta
                      respondida := true
                      data_resposta := some now2 }], d⟩ ok := by
  unfold responder_pergunta
  rw [show (⟨M ++ [r0], d⟩ : Sistema).mem = M ++ [r0] from rfl,
    updateFirst_append_of_ne M [r0] idp resposta now2 h]
  simp [updateFirst, hid]

theorem processar_client_save_ok (o : Oraculo) (p : String) (c : Option String)
    (model : String) (now1 now2 : Nat) (outcome : ApiOutcome)
    (hp : perguntaVazia p = false) (hc : o.iaClient = true) :
    processar_pergunta o p c model now1 now2 true outcome true =
      { state := { o with sys :=
          ⟨o.sys.mem ++ [⟨nextId o.sys.mem, p, c, some (gerar_resposta true model outcome),
             now1, true, some now2⟩],
           o.sys.mem ++ [⟨nextId o.sys.mem, p, c, some (gerar_resposta true model outcome),
             now1, true, some now2⟩]⟩ }
        resultado := Resultado.sucesso ⟨nextId o.sys.mem, p, c,
          some (gerar_resposta true model outcome), now1, true, some now2⟩
        iaCalls := 1 } := by
  have hne : ∀ r ∈ o.sys.mem, r.id ≠ nextId o.sys.mem := fun r hr =>
    Nat.ne_of_lt (mem_id_lt_nextId o.sys.mem r hr)
  obtain ⟨⟨M, d⟩, ic⟩ := o
  simp only at hne
  subst hc
  simp only [processar_pergunta, hp, Bool.false_eq_true, if_false, adicionar_true_eq]
  rw [responder_append_new M _
      ⟨nextId M, p, c, none, now1, false, none⟩ (nextId M)
      (gerar_resposta true model outcome) now2 true rfl hne]
  have hfind := findRegistro_append_of_ne M
      ⟨nextId M, p, c, some (gerar_resposta true model outcome), now1, true, some now2⟩
      (nextId M) rfl hne
  simp [salvar, registroAtualizado, hfind]

theorem processar_client_save_fail (o : Oraculo) (p : String) (c : Option String)
    (model : String) (now1 now2 : Nat) (outcome : ApiOutcome)
    (hp : perguntaVazia p = false) (hc : o.iaClient = true) :
    processar_pergunta o p c model now1 now2 true outcome false =
      { state := { o with sys :=
          ⟨o.sys.mem ++ [⟨nextId o.sys.mem, p, c, some (gerar_resposta true model outcome),
             now1, true, some now2⟩],
           o.sys.mem ++ [⟨nextId o.sys.mem, p, c, none, now1, false, none⟩]⟩ }
        resultado := Resultado.aviso msgAviso ⟨nextId o.sys.mem, p, c,
          some (gerar_resposta true model outcome), now1, true, some now2⟩
        iaCalls := 1 } := by
  have hne : ∀ r ∈ o.sys.mem, r.id ≠ nextId o.sys.mem := fun r hr =>
    Nat.ne_of_lt (mem_id_lt_nextId o.sys.mem r hr)
  obtain ⟨⟨M, d⟩, ic⟩ := o
  simp only at hne
  subst hc
  simp only [processar_pergunta, hp, Bool.false_eq_true, if_false, adicionar_true_eq]
  rw [responder_append_new M _
      ⟨nextId M, p, c, none, now1, false, none⟩ (nextId M)
      (gerar_resposta true model outcome) now2 false rfl hne]
  have hfind := findRegistro_append_of_ne M
      ⟨nextId M, p, c, some (gerar_resposta true model outcome), now1, true, some now2⟩
      (nextId M) rfl hne
  simp [salvar, registroAtualizado, hfind]

theorem processar_noclient (o : Oraculo) (p : String) (c : Option String)
    (model : String) (now1 now2 : Nat) (outcome : ApiOutcome)
    (hp : perguntaVazia p = false) (hc : o.iaClient = false) :
    processar_pergunta o p c model now1 now2 true outcome true =
      { state := { o with sys :=
          ⟨o.sys.mem ++ [⟨nextId o.sys.mem, p, c, some msgSemClienteProcessar,
             now1, true, some now2⟩],
           o.sys.mem ++ [⟨nextId o.sys.mem, p, c, some msgSemClienteProcessar,
             now1, true, some now2⟩]⟩ }
        resultado := Resultado.erroComRegistro msgSemClienteProcessar
          ⟨nextId o.sys.mem, p, c, some msgSemClienteProcessar, now1, true, some now2⟩
        iaCalls := 0 } := by
  have hne : ∀ r ∈ o.sys.mem, r.id ≠ nextId o.sys.mem := fun r hr =>
    Nat.ne_of_lt (mem_id_lt_nextId o.sys.mem r hr)
  obtain ⟨⟨M, d⟩, ic⟩ := o
  simp only at hne
  subst hc
  simp only [processar_pergunta, hp, Bool.false_eq_true, if_false, adicionar_true_eq]
  rw [responder_append_new M _
      ⟨nextId M, p, c, none, now1, false, none⟩ (nextId M)
      msgSemClienteProcessar now2 true rfl hne]
  have hfind := findRegistro_append_of_ne M
      ⟨nextId M, p, c, some msgSemClienteProcessar, now1, true, some now2⟩
      (nextId M) rfl hne
  simp [salvar, registroAtualizado, hfind]

/-- C3: for every question that is empty or consists only of whitespace,
processar_pergunta returns the validation-error result, creates no record
(the whole state, store and file, is unchanged), and the completion client
is never invoked (zero calls). -/
theorem claim3_empty_question_rejected (o : Oraculo) (pergunta : String)
    (contexto : Option String) (model : String) (now1 now2 : Nat) (ok1 : Bool)
    (outcome : ApiOutcome) (ok2 : Bool) (h : perguntaVazia pergunta = true) :
    processar_pergunta o pergunta contexto model now1 now2 ok1 outcome ok2 =
      { state := o, resultado := .erro msgPerguntaVazia, iaCalls := 0 } := by
  simp [processar_pergunta, h]

/-- Witness for C3 at the whitespace-only question "   ". -/
theorem claim3_empty_question_rejected_witness :
    processar_pergunta { sys := sistemaVazio, iaClient := true } "   " none "m" 0 1 true
        ApiOutcome.rateLimit true =
      { state := { sys := sistemaVazio, iaClient := true }
        resultado := .erro msgPerguntaVazia
        iaCalls := 0 } :=
  claim3_empty_question_rejected { sys := sistemaVazio, iaClient := true } "   " none "m"
    0 1 true ApiOutcome.rateLimit true (by decide)

/-- C4: for every backing-file state that is absent, empty, not valid
JSON, or JSON whose shape is wrong (no "perguntas" key holding a list),
_carregar sets self.dados to the empty record set; being a total function
of that input, it raises nothing to its caller. -/
theorem claim4_load_recovers_empty (inp : LoadInput) (h : loadOk inp = false) :
    carregar inp = dadosVazios := by
  cases inp with
  | absent => rfl
  | empty => rfl
  | invalid => rfl
  | parsed j =>
    cases j with
    | null => rfl
    | bool b => rfl
    | num n => rfl
    | str s => rfl
    | arr elems => rfl
    | obj fields =>
      cases hd : dictGet fields "perguntas" with
      | none => simp [carregar, hd]
      | some v =>
        cases v with
        | arr elems => rw [loadOk, hd] at h; cases h
        | null => simp [carregar, hd]
        | bool b => simp [carregar, hd]
        | num n => simp [carregar, hd]
        | str s => simp [carregar, hd]
        | obj fields2 => simp [carregar, hd]

/-- Witness for C4 at a parsed file of the wrong shape, where "perguntas"
holds a number instead of a list. -/
theorem claim4_load_recovers_empty_witness :
    loadOk (LoadInput.parsed (Json.obj [("perguntas", Json.num 5)])) = false ∧
    carregar (LoadInput.parsed (Json.obj [("perguntas", Json.num 5)])) = dadosVazios :=
  ⟨rfl, claim4_load_recovers_empty (LoadInput.parsed (Json.obj [("perguntas", Json.num 5)])) rfl⟩

/-- C5: responder_pergunta with an id not present in the store returns
False and leaves the store and the file completely untouched; with a
present id its return value is exactly the success of the file write. -/
theorem claim5_set_answer_unknown_id :
    (∀ (s : Sistema) (idp : Nat) (resposta : String) (now : Nat) (ok : Bool),
        (∀ r ∈ s.mem, r.id ≠ idp) →
        responder_pergunta s idp resposta now ok = (s, false)) ∧
    (∀ (s : Sistema) (idp : Nat) (resposta : String) (now : Nat) (ok : Bool),
        (∃ r ∈ s.mem, r.id = idp) →
        (responder_pergunta s idp resposta now ok).2 = ok) := by
  constructor
  · intro s idp resposta now ok h
    unfold responder_pergunta
    rw [(updateFirst_eq_none_iff s.mem idp resposta now).mpr h]
  · intro s idp resposta now ok h
    unfold responder_pergunta
    cases hu : updateFirst s.mem idp resposta now with
    | none =>
      obtain ⟨r, hr, hid⟩ := h
      exact absurd hid ((updateFirst_eq_none_iff s.mem idp resposta now).mp hu r hr)
    | some mem2 => cases ok <;> simp [salvar]

/-- Witness for C5: a store holding only id 1; answering id 5 returns
False and the same state, answering id 1 with a failing write returns
False as the write result. -/
theorem claim5_set_answer_unknown_id_witness :
    responder_pergunta ⟨[⟨1, "q", none, none, 0, false, none⟩], []⟩ 5 "x" 7 true =
        (⟨[⟨1, "q", none, none, 0, false, none⟩], []⟩, false) ∧
    (responder_pergunta ⟨[⟨1, "q", none, none, 0, false, none⟩], []⟩ 1 "x" 7 false).2 = false :=
  ⟨claim5_set_answer_unknown_id.1 ⟨[⟨1, "q", none, none, 0, false, none⟩], []⟩ 5 "x" 7 true
      (by decide),
   claim5_set_answer_unknown_id.2 ⟨[⟨1, "q", none, none, 0, false, none⟩], []⟩ 1 "x" 7 false
      ⟨⟨1, "q", none, none, 0, false, none⟩, by decide, rfl⟩⟩

/-- C7 counterexample: on the add of the first question to the empty
store, the salvar write passes the backing file through a state that is
not a complete record set — open(arquivo, "w") truncates the target in
place before json.dump rewrites it, with no temporary file and no atomic
replace. -/
theorem claim7_counterexample :
    ((salvarFileStates (FileContent.recordSet [])
        ((adicionar_pergunta sistemaVazio "q" none 0 true).1.mem)).all
      FileContent.isRecordSet) = false := by
  decide

/-- C7 (amended): salvar persists the full record set by a direct
truncate-then-write of the backing file: the final on-disk state holds
the complete current set (and a successful salvar leaves the file equal
to memory), but the write is not write-temp-then-replace, and the file
transiently holds a truncated state between the two steps. -/
theorem claim7_amended_direct_write (before : FileContent) (s : Sistema) :
    (salvarFileStates before s.mem).getLast? = some (FileContent.recordSet s.mem) ∧
    FileContent.truncated ∈ salvarFileStates before s.mem ∧
    (salvar s true).1.disk = s.mem := by
  refine ⟨rfl, ?_, rfl⟩
  simp [salvarFileStates]

/-- C1 counterexample: the unconfigured client is one of the completion
errors the claim lists, yet with it ask("What is wisdom?") returns the
error-shaped dict of the no-client branch, not a Success-shaped result. -/
theorem claim1_counterexample :
    (processar_pergunta { sys := sistemaVazio, iaClient := false } "What is wisdom?" none
        "gpt-3.5-turbo" 0 1 true ApiOutcome.rateLimit true).resultado.isSucesso = false := by
  decide

/-- C1 (amended): for every non-empty question, with both writes
succeeding, a Completion Client failure never fails ask: every remote-call
error is converted to the fixed fallback string of its except clause (the
enumeration in the last conjunct) and ask returns the Success-shaped
record whose answer is that fallback, persisted with respondida = true;
in the unconfigured-client case the fallback answer is likewise persisted
with respondida = true, but the returned dict is error-tagged (it carries
an erro key next to the record fields) instead of Success-shaped. -/
theorem claim1_completion_failure_amended (o : Oraculo) (pergunta : String)
    (contexto : Option String) (model : String) (now1 now2 : Nat) (outcome : ApiOutcome)
    (hp : perguntaVazia pergunta = false) (herr : outcome.isError = true) :
    (o.iaClient = true →
      processar_pergunta o pergunta contexto model now1 now2 true outcome true =
        { state := { o with sys :=
            ⟨o.sys.mem ++ [⟨nextId o.sys.mem, pergunta, contexto,
               some (gerar_resposta true model outcome), now1, true, some now2⟩],
             o.sys.mem ++ [⟨nextId o.sys.mem, pergunta, contexto,
               some (gerar_resposta true model outcome), now1, true, some now2⟩]⟩ }
          resultado := Resultado.sucesso ⟨nextId o.sys.mem, pergunta, contexto,
            some (gerar_resposta true model outcome), now1, true, some now2⟩
          iaCalls := 1 }) ∧
    (o.iaClient = false →
      processar_pergunta o pergunta contexto model now1 now2 true outcome true =
        { state := { o with sys :=
            ⟨o.sys.mem ++ [⟨nextId o.sys.mem, pergunta, contexto,
               some msgSemClienteProcessar, now1, true, some now2⟩],
             o.sys.mem ++ [⟨nextId o.sys.mem, pergunta, contexto,
               some msgSemClienteProcessar, now1, true, some now2⟩]⟩ }
          resultado := Resultado.erroComRegistro msgSemClienteProcessar
            ⟨nextId o.sys.mem, pergunta, contexto, some msgSemClienteProcessar,
              now1, true, some now2⟩
          iaCalls := 0 }) ∧
    (gerar_resposta true model outcome = msgConexao ∨
     gerar_resposta true model outcome = msgRateLimit ∨
     gerar_resposta true model outcome = msgAuth ∨
     gerar_resposta true model outcome = msgPermissao ∨
     gerar_resposta true model outcome = msgNotFound model ∨
     gerar_resposta true model outcome = msgUnprocessable ∨
     (∃ code, gerar_resposta true model outcome = msgStatus code) ∨
     gerar_resposta true model outcome = msgTimeout ∨
     gerar_resposta true model outcome = msgUnknown) := by
  refine ⟨fun hc => processar_client_save_ok o pergunta contexto model now1 now2 outcome hp hc,
    fun hc => processar_noclient o pergunta contexto model now1 now2 outcome hp hc, ?_⟩
  cases outcome with
  | success t => exact absurd herr (by simp [ApiOutcome.isError])
  | connectionError => exact Or.inl rfl
  | rateLimit => exact Or.inr (Or.inl rfl)
  | authError => exact Or.inr (Or.inr (Or.inl rfl))
  | permissionDenied => exact Or.inr (Or.inr (Or.inr (Or.inl rfl)))
  | notFound => exact Or.inr (Or.inr (Or.inr (Or.inr (Or.inl rfl))))
  | unprocessable => exact Or.inr (Or.inr (Or.inr (Or.inr (Or.inr (Or.inl rfl)))))
  | statusError code =>
    exact Or.inr (Or.inr (Or.inr (Or.inr (Or.inr (Or.inr (Or.inl ⟨code, rfl⟩))))))
  | timeout =>
    exact Or.inr (Or.inr (Or.inr (Or.inr (Or.inr (Or.inr (Or.inr (Or.inl rfl)))))))
  | unknownError =>
    exact Or.inr (Or.inr (Or.inr (Or.inr (Or.inr (Or.inr (Or.inr (Or.inr rfl)))))))

/-- Witness for C1 (amended) at the rate-limited stub of the spec: the
configured-client conjunct applied to ask("What is wisdom?") yields the
Success-shaped record carrying the rate-limit fallback, answered. -/
theorem claim1_completion_failure_amended_witness :
    processar_pergunta { sys := sistemaVazio, iaClient := true } "What is wisdom?" none
        "gpt-3.5-turbo" 0 1 true ApiOutcome.rateLimit true =
      { state := { sys := ⟨[⟨1, "What is wisdom?", none, some msgRateLimit, 0, true, some 1⟩],
                           [⟨1, "What is wisdom?", none, some msgRateLimit, 0, true, some 1⟩]⟩
                   iaClient := true }
        resultado := Resultado.sucesso
          ⟨1, "What is wisdom?", none, some msgRateLimit, 0, true, some 1⟩
        iaCalls := 1 } :=
  (claim1_completion_failure_amended { sys := sistemaVazio, iaClient := true }
      "What is wisdom?" none "gpt-3.5-turbo" 0 1 ApiOutcome.rateLimit
      (by decide) (by decide)).1 rfl

/-- C6: when the answer has been generated but the write of
responder_pergunta fails, processar_pergunta returns the warning-shaped
dict that still carries the generated answer text (and the record, updated
in memory, is answered). -/
theorem claim6_partial_success_keeps_answer (o : Oraculo) (pergunta : String)
    (contexto : Option String) (model : String) (now1 now2 : Nat) (outcome : ApiOutcome)
    (hp : perguntaVazia pergunta = false) (hc : o.iaClient = true) :
    (processar_pergunta o pergunta contexto model now1 now2 true outcome false).resultado =
      Resultado.aviso msgAviso ⟨nextId o.sys.mem, pergunta, contexto,
        some (gerar_resposta true model outcome), now1, true, some now2⟩ := by
  rw [processar_client_save_fail o pergunta contexto model now1 now2 outcome hp hc]

/-- Witness for C6: a store whose answer write always fails still returns
the generated answer (here the rate-limit fallback) inside the warning
dict for ask("test"). -/
theorem claim6_partial_success_keeps_answer_witness :
    (processar_pergunta { sys := sistemaVazio, iaClient := true } "test" none "m" 0 1 true
        ApiOutcome.rateLimit false).resultado =
      Resultado.aviso msgAviso ⟨1, "test", none, some msgRateLimit, 0, true, some 1⟩ :=
  claim6_partial_success_keeps_answer { sys := sistemaVazio, iaClient := true } "test" none
    "m" 0 1 ApiOutcome.rateLimit (by decide) rfl

theorem foldl_max_range_one (k : Nat) : (List.range' 1 k).foldl max 0 = k := by
  induction k with
  | zero => rfl
  | succ n ih =>
    rw [List.range'_concat, List.foldl_append, ih]
    simp [Nat.max_eq_right, Nat.le_succ]
    omega

theorem applyOp_add_mem (s : Sistema) (p : String) (c : Option String) (n : Nat) (ok : Bool) :
    (applyOp s (.add p c n ok)).mem = s.mem ++ [⟨nextId s.mem, p, c, none, n, false, none⟩] := by
  cases ok with
  | true => rw [applyOp, adicionar_true_eq]
  | false => rw [applyOp, adicionar_false_eq]

theorem applyOp_answer_map_id (s : Sistema) (i : Nat) (resp : String) (n : Nat) (ok : Bool) :
    ((applyOp s (.answer i resp n ok)).mem).map Registro.id = s.mem.map Registro.id := by
  rw [applyOp, responder_pergunta]
  cases hu : updateFirst s.mem i resp n with
  | none => rfl
  | some mem2 =>
    have hid := updateFirst_map_id s.mem i resp n mem2 hu
    cases ok <;> simp [salvar, hid]

theorem idsAssigned_spec (ops : List Op) :
    ∀ (s : Sistema) (k : Nat), s.mem.map Registro.id = List.range' 1 k →
      idsAssigned s ops = List.range' (k + 1) (countAdds ops) := by
  induction ops with
  | nil => intro s k h; rfl
  | cons op ops ih =>
    intro s k h
    cases op with
    | add p c n ok =>
      have hnext : nextId s.mem = k + 1 := by
        rw [nextId, h, foldl_max_range_one]
      have hmem : ((applyOp s (.add p c n ok)).mem).map Registro.id = List.range' 1 (k + 1) := by
        rw [applyOp_add_mem, List.map_append, h, List.range'_concat]
        simp [hnext]
        omega
      rw [idsAssigned, hnext, ih _ _ hmem, countAdds, List.range'_succ]
    | answer i resp n ok =>
      have hmem : ((applyOp s (.answer i resp n ok)).mem).map Registro.id = List.range' 1 k := by
        rw [applyOp_answer_map_id, h]
      rw [idsAssigned, ih _ _ hmem, countAdds]

/-- C2: over any sequence of add calls starting from the empty store,
possibly interleaved with set_answer calls, the ids adicionar_pergunta
assigns are exactly 1, 2, ..., N in call order — no gaps, no repeats,
strictly increasing. -/
theorem claim2_ids_sequential (ops : List Op) :
    idsAssigned sistemaVazio ops = List.range' 1 (countAdds ops) ∧
    (idsAssigned sistemaVazio ops).Nodup ∧
    List.Pairwise (fun a b => a < b) (idsAssigned sistemaVazio ops) := by
  have h := idsAssigned_spec ops sistemaVazio 0 rfl
  rw [Nat.zero_add] at h
  refine ⟨h, ?_, ?_⟩
  · rw [h]; exact List.nodup_range' 1 (countAdds ops)
  · rw [h]; exact List.pairwise_lt_range' 1 (countAdds ops)

/-- C8: the list(filter_answered?) operation (modelled from the spec, see
listRecords) returns the records optionally filtered by answered status;
without a recency request it preserves insertion order (the result is a
sublist of the store, and a record is in it exactly when it is in the
store and passes the filter); with a recency request it returns the same
records sorted by created_at descending. -/
theorem claim8_list_operation (rs : List Registro) (filtroRespondida : Option Bool) :
    (listRecords rs filtroRespondida false).Sublist rs ∧
    (∀ r, r ∈ listRecords rs filtroRespondida false ↔
      (r ∈ rs ∧ filtroMatch filtroRespondida r = true)) ∧
    (listRecords rs filtroRespondida true).Perm (listRecords rs filtroRespondida false) ∧
    List.Pairwise (fun a b => b.data ≤ a.data) (listRecords rs filtroRespondida true) := by
  have htrans : ∀ a b c : Registro, decide (b.data ≤ a.data) = true →
      decide (c.data ≤ b.data) = true → decide (c.data ≤ a.data) = true := by
    intro a b c h1 h2
    simp at h1 h2 ⊢
    omega
  have htotal : ∀ a b : Registro,
      (decide (b.data ≤ a.data) || decide (a.data ≤ b.data)) = true := by
    intro a b
    simp
    omega
  refine ⟨?_, ?_, ?_, ?_⟩
  · cases filtroRespondida with
    | none => exact List.Sublist.refl rs
    | some b => exact List.filter_sublist rs
  · intro r
    cases filtroRespondida with
    | none => simp [listRecords, filtroMatch]
    | some b => simp [listRecords, filtroMatch, List.mem_filter]
  · cases filtroRespondida with
    | none => exact List.mergeSort_perm rs _
    | some b => exact List.mergeSort_perm _ _
  · have hs := List.sorted_mergeSort htrans htotal
      (match filtroRespondida with
       | none => rs
       | some b => rs.filter (fun r => r.respondida = b))
    cases filtroRespondida with
    | none =>
      refine List.Pairwise.imp ?_ hs
      intro a b h
      simpa using h
    | some b =>
      refine List.Pairwise.imp ?_ hs
      intro a b h
      simpa using h

/-- Witness for C8: the pending record is listed under the
filter_answered = false filter of a two-record store. -/
theorem claim8_list_operation_witness :
    (⟨2, "q2", none, none, 5, false, none⟩ : Registro) ∈
      listRecords [⟨1, "q1", none, some "a", 3, true, some 4⟩,
        ⟨2, "q2", none, none, 5, false, none⟩] (some false) false :=
  ((claim8_list_operation [⟨1, "q1", none, some "a", 3, true, some 4⟩,
      ⟨2, "q2", none, none, 5, false, none⟩] (some false)).2.1
    ⟨2, "q2", none, none, 5, false, none⟩).mpr ⟨by decide, by decide⟩

theorem invarianteRespondida_salvar (s : Sistema) (ok : Bool)
    (hm : invarianteRespondida s.mem) (hd : invarianteRespondida s.disk) :
    invarianteRespondida (salvar s ok).1.mem ∧ invarianteRespondida (salvar s ok).1.disk := by
  cases ok with
  | true => exact ⟨hm, hm⟩
  | false => exact ⟨hm, hd⟩

theorem invarianteRespondida_applyOp (s : Sistema) (op : Op)
    (hm : invarianteRespondida s.mem) (hd : invarianteRespondida s.disk) :
    invarianteRespondida (applyOp s op).mem ∧ invarianteRespondida (applyOp s op).disk := by
  cases op with
  | add p c n ok =>
    have hmem : invarianteRespondida (s.mem ++ [⟨nextId s.mem, p, c, none, n, false, none⟩]) := by
      intro r hr
      rcases List.mem_append.mp hr with h1 | h2
      · exact hm r h1
      · simp only [List.mem_singleton] at h2
        subst h2
        simp
    have := invarianteRespondida_salvar
      ⟨s.mem ++ [⟨nextId s.mem, p, c, none, n, false, none⟩], s.disk⟩ ok hmem hd
    cases ok with
    | true => exact this
    | false => exact this
  | answer i resp n ok =>
    rw [applyOp, responder_pergunta]
    cases hu : updateFirst s.mem i resp n with
    | none => exact ⟨hm, hd⟩
    | some mem2 =>
      have hmem2 : invarianteRespondida mem2 := by
        intro r hr
        rcases updateFirst_mem s.mem i resp n mem2 hu r hr with h1 | h2
        · exact hm r h1
        · rw [h2.1, h2.2.1, h2.2.2]
          simp
      exact invarianteRespondida_salvar ⟨mem2, s.disk⟩ ok hmem2 hd

theorem invarianteRespondida_runOps (ops : List Op) :
    ∀ s : Sistema, invarianteRespondida s.mem → invarianteRespondida s.disk →
      invarianteRespondida (runOps s ops).mem ∧ invarianteRespondida (runOps s ops).disk := by
  induction ops with
  | nil => intro s hm hd; exact ⟨hm, hd⟩
  | cons op ops ih =>
    intro s hm hd
    obtain ⟨h1, h2⟩ := invarianteRespondida_applyOp s op hm hd
    exact ih _ h1 h2

/-- C9: in every store state reachable from the empty store by any
sequence of adicionar_pergunta and responder_pergunta calls, every record
(in memory, and likewise on disk) has respondida = true exactly when both
its resposta and its data_resposta are set. -/
theorem claim9_answered_iff_fields (ops : List Op) (r : Registro)
    (h : r ∈ (runOps sistemaVazio ops).mem ∨ r ∈ (runOps sistemaVazio ops).disk) :
    r.respondida = true ↔ (r.resposta ≠ none ∧ r.data_resposta ≠ none) := by
  have hinv := invarianteRespondida_runOps ops sistemaVazio
    (fun r hr => absurd hr (List.not_mem_nil r))
    (fun r hr => absurd hr (List.not_mem_nil r))
  cases h with
  | inl hm => exact hinv.1 r hm
  | inr hd => exact hinv.2 r hd

/-- Witness for C9: the single record after an add followed by a
successful answer satisfies the equivalence. -/
theorem claim9_answered_iff_fields_witness :
    ((⟨1, "q", none, some "a", 0, true, some 1⟩ : Registro).respondida = true ↔
      ((⟨1, "q", none, some "a", 0, true, some 1⟩ : Registro).resposta ≠ none ∧
       (⟨1, "q", none, some "a", 0, true, some 1⟩ : Registro).data_resposta ≠ none)) :=
  claim9_answered_iff_fields [Op.add "q" none 0 true, Op.answer 1 "a" 1 true]
    ⟨1, "q", none, some "a", 0, true, some 1⟩ (Or.inl (by decide))

/-- C10: every successful persist writes the entire in-memory set — after
a successful add, and after a successful set_answer on a present id, the
file content equals the in-memory list; and a record whose own add
reported a persistence failure keeps its allocated id in memory and is on
disk after the next operation whose salvar succeeds. -/
theorem claim10_durability :
    (∀ (s : Sistema) (p : String) (c : Option String) (n : Nat),
        (adicionar_pergunta s p c n true).1.disk = (adicionar_pergunta s p c n true).1.mem) ∧
    (∀ (s : Sistema) (idp : Nat) (resposta : String) (now : Nat),
        (updateFirst s.mem idp resposta now).isSome = true →
        (responder_pergunta s idp resposta now true).1.disk =
          (responder_pergunta s idp resposta now true).1.mem) ∧
    (∀ (s : Sistema) (p : String) (c : Option String) (n : Nat) (op : Op),
        (adicionar_pergunta s p c n false).2 = none ∧
        nextId s.mem ∈ ((adicionar_pergunta s p c n false).1.mem).map Registro.id ∧
        (opPersists (adicionar_pergunta s p c n false).1 op = true →
          nextId s.mem ∈ ((applyOp (adicionar_pergunta s p c n false).1 op).disk).map Registro.id)) := by
  refine ⟨fun s p c n => rfl, ?_, ?_⟩
  · intro s idp resposta now h
    rw [responder_pergunta]
    cases hu : updateFirst s.mem idp resposta now with
    | none => rw [hu] at h; cases h
    | some mem2 => rfl
  · intro s p c n op
    refine ⟨rfl, ?_, ?_⟩
    · rw [adicionar_false_eq]
      simp
    · intro hpersist
      rw [adicionar_false_eq] at hpersist ⊢
      cases op with
      | add p2 c2 n2 ok =>
        rw [opPersists] at hpersist
        subst hpersist
        rw [applyOp, adicionar_true_eq]
        simp
      | answer i resp nn ok =>
        rw [opPersists, Bool.and_eq_true] at hpersist
        obtain ⟨hok, hsome⟩ := hpersist
        subst hok
        rw [applyOp, responder_pergunta]
        cases hu : updateFirst
            (s.mem ++ [⟨nextId s.mem, p, c, none, n, false, none⟩]) i resp nn with
        | none => rw [hu] at hsome; cases hsome
        | some mem2 =>
          have hid := updateFirst_map_id _ i resp nn mem2 hu
          simp [salvar, hid]

/-- Witness for C10: after an add whose write failed, the next successful
add makes id 1 durable; a successful answer write on a present id leaves
file equal to memory. -/
theorem claim10_durability_witness :
    (adicionar_pergunta sistemaVazio "q" none 0 true).1.disk =
        (adicionar_pergunta sistemaVazio "q" none 0 true).1.mem ∧
    (responder_pergunta ⟨[⟨1, "q", none, none, 0, false, none⟩], []⟩ 1 "a" 1 true).1.disk =
        (responder_pergunta ⟨[⟨1, "q", none, none, 0, false, none⟩], []⟩ 1 "a" 1 true).1.mem ∧
    (1 : Nat) ∈ ((applyOp (adicionar_pergunta sistemaVazio "q" none 0 false).1
        (Op.add "q2" none 2 true)).disk).map Registro.id :=
  ⟨claim10_durability.1 sistemaVazio "q" none 0,
   claim10_durability.2.1 ⟨[⟨1, "q", none, none, 0, false, none⟩], []⟩ 1 "a" 1 (by decide),
   (claim10_durability.2.2 sistemaVazio "q" none 0 (Op.add "q2" none 2 true)).2.2 (by decide)⟩
